import Mathlib

/-!
# Shallow embedding of `src/bot.py` (Telegram admission bot)

The bot drives a per-user registration dialogue (consent → name → address →
phone), fans the completed submission out to a static admin set, and handles
`approve:<id>` / `reject:<id>` callback decisions.

Modelling notes:
* aiogram's FSM is per user: `fsmState` is the sender's FSM state
  (`state.set_state`), `data` its FSM data (`state.update_data` /
  `state.get_data`; `state.set_state` does not touch the data, only
  `state.clear` erases both).
* The Python module-level set `active_requests` is modelled as a duplicate-free
  `List Nat` with `setAdd` / `setDiscard` mirroring `set.add` / `set.discard`.
* Outbound calls (`message.answer`, `bot.send_message`,
  `bot.create_chat_invite_link`, `callback.message.edit_text`,
  `callback.answer`) are recorded as an `Effect` list in emission order.
* Fallible network sends are driven by explicit oracles: `sendOk admin`
  tells whether `bot.send_message(admin, ...)` in the fan-out loop succeeds,
  `issueOk` whether `create_chat_invite_link` succeeds.  A Python exception
  aborts the handler, keeping the mutations already performed: a handler
  returns an `HResult` whose `ok` flag records whether it ran to completion.
* `int(callback.data.split(":")[1])` is modelled by `parse_target`, with a
  hand-rolled structural split and decimal parser (canonical numerals).
* Dispatch order follows registration order in the source: the `/start`
  handler is registered first and has no state filter, so `/start` is routed
  to it in every FSM state; the step handlers fire only in their state.
-/

namespace Bot

/-- The four FSM states of `class Registration(StatesGroup)`. -/
inductive Step
  | consent
  | name
  | address
  | phone
deriving DecidableEq, Repr

/-- The FSM data written by `state.update_data(...)`: only the keys
`name` and `address` are ever used by the source. -/
structure SessionData where
  name : Option String
  address : Option String
deriving DecidableEq, Repr

/-- The mutable state a message touches: the sender's FSM state and data,
plus the global `active_requests` set. -/
structure BotState where
  fsmState : Option Step
  data : SessionData
  active_requests : List Nat
deriving DecidableEq, Repr

/-- `set.add`: inserting an element already present is a no-op. -/
def setAdd (x : Nat) (l : List Nat) : List Nat :=
  if x ∈ l then l else x :: l

/-- `set.discard`: remove the element if present. -/
def setDiscard (x : Nat) (l : List Nat) : List Nat :=
  l.erase x

/-- The inline keyboard `admin_kb(user_id)`: two buttons carrying
`approve:{user_id}` / `reject:{user_id}` callback data. -/
structure InlineKb where
  approveData : String
  rejectData : String
deriving DecidableEq, Repr

def admin_kb (user_id : Nat) : InlineKb :=
  { approveData := "approve:" ++ toString user_id
  , rejectData := "reject:" ++ toString user_id }

/-- Observable outbound actions, in the order the source code performs them. -/
inductive Effect
  /-- `message.answer(text)`; the flag records whether `consent_kb` was
  attached as `reply_markup`. -/
  | reply (text : String) (withConsentKb : Bool)
  /-- `bot.send_message(admin_id, text_for_admin, reply_markup=admin_kb(uid))`. -/
  | sendToAdmin (adminId : Nat) (text : String) (kb : InlineKb)
  /-- `bot.send_message(dst, text)` to an applicant. -/
  | sendMessage (dst : Nat) (text : String)
  /-- `bot.create_chat_invite_link(chat_id, member_limit, expire_date=hours)`. -/
  | createInvite (chatId : Int) (memberLimit : Nat) (expireHours : Nat)
  /-- `callback.message.edit_text(newText)`. -/
  | editText (newText : String)
  /-- `callback.answer()`. -/
  | answerCallback
deriving DecidableEq, Repr

/-- Result of one handler run: the state after it, the effects it emitted,
and whether it finished without an exception escaping. -/
structure HResult where
  state : BotState
  effects : List Effect
  ok : Bool
deriving DecidableEq, Repr

/-! ## Fixed message texts (verbatim from the source) -/

def alreadyPendingText : String :=
  "Ваша заявка уже находится на рассмотрении администратора."

def consentPromptText : String :=
  "Для регистрации необходимо согласие на обработку персональных данных.\n\n" ++
  "Я даю согласие на обработку моих персональных данных " ++
  "(имя, адрес, номер телефона) в соответствии с ФЗ-152 " ++
  "«О персональных данных» исключительно в целях " ++
  "рассмотрения заявки на вступление в канал.\n\n" ++
  "Обработка включает сбор и передачу данных администраторам " ++
  "без хранения.\n\n" ++
  "Нажмите «Согласен» для продолжения."

def askNameText : String := "Введите ваше имя:"

def askAddressText : String := "Введите адрес:"

def askPhoneText : String := "Введите номер телефона:"

def submittedText : String :=
  "Ваша заявка отправлена администраторам.\nОжидайте решения."

def rejectNoticeText : String :=
  "К сожалению, ваша заявка отклонена администраторами."

def approveNoticeText (inviteLink : String) : String :=
  "Ваша заявка одобрена.\n\n" ++
  "Ссылка для вступления (одноразовая, 24 часа):\n" ++
  inviteLink

/-- The `text_for_admin` f-string built in `get_phone`. -/
def text_for_admin (username : String) (user_id : Nat)
    (name address phone : String) : String :=
  "Новая заявка на вступление\n\n" ++
  "Telegram: @" ++ username ++ "\n" ++
  "ID: " ++ toString user_id ++ "\n\n" ++
  "Имя: " ++ name ++ "\n" ++
  "Адрес: " ++ address ++ "\n" ++
  "Телефон: " ++ phone

/-! ## Message handlers -/

/-- `start`: guarded by `if message.from_user.id in active_requests`;
otherwise sends the consent prompt with `consent_kb` and sets state
`Registration.consent` (FSM data is untouched by `set_state`). -/
def start (uid : Nat) (s : BotState) : BotState × List Effect :=
  if uid ∈ s.active_requests then
    (s, [Effect.reply alreadyPendingText false])
  else
    ({ s with fsmState := some Step.consent },
     [Effect.reply consentPromptText true])

/-- `consent_given`: fires on state `consent` with the exact text
`"Согласен"`; prompts for the name and advances. -/
def consent_given (s : BotState) : BotState × List Effect :=
  ({ s with fsmState := some Step.name }, [Effect.reply askNameText false])

/-- `get_name`: fires on any message in state `name`;
records `name := message.text` (no validation) and advances. -/
def get_name (text : String) (s : BotState) : BotState × List Effect :=
  ({ s with data := { s.data with name := some text }
          , fsmState := some Step.address },
   [Effect.reply askAddressText false])

/-- `get_address`: fires on any message in state `address`;
records `address := message.text` (no validation) and advances. -/
def get_address (text : String) (s : BotState) : BotState × List Effect :=
  ({ s with data := { s.data with address := some text }
          , fsmState := some Step.phone },
   [Effect.reply askPhoneText false])

/-- The `for admin_id in ADMIN_IDS: await bot.send_message(...)` loop.
There is no `try`/`except`: the first failing send raises, aborting the
loop, so later admins are never attempted.  Returns the delivered sends
and whether the loop completed. -/
def fanout (sendOk : Nat → Bool) (text : String) (kb : InlineKb) :
    List Nat → List Effect × Bool
  | [] => ([], true)
  | a :: rest =>
    if sendOk a then
      let r := fanout sendOk text kb rest
      (Effect.sendToAdmin a text kb :: r.1, r.2)
    else
      ([], false)

/-- `get_phone`: fires on any message in state `phone`.  Source order:
`data = state.get_data()`; `active_requests.add(user_id)`; build
`text_for_admin` (a `KeyError` here would still leave the user added);
fan-out loop; applicant acknowledgment; `state.clear()` (which erases
both the FSM state and the data). -/
def get_phone (admins : List Nat) (sendOk : Nat → Bool)
    (uid : Nat) (username : String) (text : String) (s : BotState) : HResult :=
  let s1 : BotState := { s with active_requests := setAdd uid s.active_requests }
  match s.data.name, s.data.address with
  | some n, some a =>
    let msg := text_for_admin username uid n a text
    let r := fanout sendOk msg (admin_kb uid) admins
    if r.2 then
      { state := { s1 with fsmState := none, data := ⟨none, none⟩ }
      , effects := r.1 ++ [Effect.reply submittedText false]
      , ok := true }
    else
      { state := s1, effects := r.1, ok := false }
  | _, _ =>
    { state := s1, effects := [], ok := false }

/-- Routing of a text message, in handler registration order: the `/start`
handler is registered first with only the filter `F.text == "/start"`, so
it wins in every FSM state; then the state-filtered handlers; a message
matching no handler is silently dropped. -/
def handle_message (admins : List Nat) (sendOk : Nat → Bool)
    (uid : Nat) (username : String) (text : String) (s : BotState) : HResult :=
  if text = "/start" then
    let r := start uid s
    { state := r.1, effects := r.2, ok := true }
  else
    match s.fsmState with
    | some Step.consent =>
      if text = "Согласен" then
        let r := consent_given s
        { state := r.1, effects := r.2, ok := true }
      else
        { state := s, effects := [], ok := true }
    | some Step.name =>
      let r := get_name text s
      { state := r.1, effects := r.2, ok := true }
    | some Step.address =>
      let r := get_address text s
      { state := r.1, effects := r.2, ok := true }
    | some Step.phone => get_phone admins sendOk uid username text s
    | none => { state := s, effects := [], ok := true }

/-! ## Decision (callback) handlers -/

/-- Structural model of Python `str.split(sep)` for a one-character
separator, on the character list. -/
def splitCh (sep : Char) : List Char → List (List Char)
  | [] => [[]]
  | c :: cs =>
    let r := splitCh sep cs
    if c = sep then
      [] :: r
    else
      match r with
      | [] => [[c]]
      | g :: gs => (c :: g) :: gs

/-- One decimal digit. -/
def digit? (c : Char) : Option Nat :=
  if '0' ≤ c ∧ c ≤ '9' then some (c.toNat - '0'.toNat) else none

def natOfDigitsAux : Nat → List Char → Option Nat
  | acc, [] => some acc
  | acc, c :: cs =>
    match digit? c with
    | some d => natOfDigitsAux (acc * 10 + d) cs
    | none => none

/-- `int(text)` restricted to canonical decimal numerals (the only shape
the bot itself ever embeds in callback data); `none` models the
`ValueError` raised on anything else. -/
def natOfDigits? : List Char → Option Nat
  | [] => none
  | cs => natOfDigitsAux 0 cs

/-- `int(callback.data.split(":")[1])`: `none` models the exception
raised on malformed data (missing field or non-numeral). -/
def parse_target (data : String) : Option Nat :=
  match (splitCh ':' data.data).get? 1 with
  | some cs => natOfDigits? cs
  | none => none

/-- `approve_user`: parses the target from the callback data, calls
`create_chat_invite_link(chat_id=CHANNEL_ID, member_limit=1,
expire_date=timedelta(hours=24))`, messages the applicant with the
invite link, discards the target from `active_requests`, appends the
approval annotation to the admin's message, and answers the callback.
`fromId` is `callback.from_user.id`: the source never reads it — no
check against `ADMIN_IDS` is performed.  `issueOk = false` models an
upstream failure of the invite call: the exception escapes before any
other effect, leaving all state untouched. -/
def approve_user (channelId : Int) (issueOk : Bool) (inviteLink : String)
    (fromId : Nat) (cbData : String) (modMsgText : String)
    (s : BotState) : HResult :=
  match parse_target cbData with
  | none => { state := s, effects := [], ok := false }
  | some user_id =>
    if issueOk then
      { state := { s with active_requests := setDiscard user_id s.active_requests }
      , effects :=
          [ Effect.createInvite channelId 1 24
          , Effect.sendMessage user_id (approveNoticeText inviteLink)
          , Effect.editText (modMsgText ++ "\n\n✅ Заявка одобрена")
          , Effect.answerCallback ]
      , ok := true }
    else
      { state := s
      , effects := [Effect.createInvite channelId 1 24]
      , ok := false }

/-- `reject_user`: messages the applicant with the fixed rejection notice,
discards the target from `active_requests`, appends the rejection
annotation, and answers the callback.  As in `approve_user`, `fromId`
(`callback.from_user.id`) is never read. -/
def reject_user (fromId : Nat) (cbData : String) (modMsgText : String)
    (s : BotState) : HResult :=
  match parse_target cbData with
  | none => { state := s, effects := [], ok := false }
  | some user_id =>
    { state := { s with active_requests := setDiscard user_id s.active_requests }
    , effects :=
        [ Effect.sendMessage user_id rejectNoticeText
        , Effect.editText (modMsgText ++ "\n\n❌ Заявка отклонена")
        , Effect.answerCallback ]
    , ok := true }

/-- Callback routing: `F.data.startswith("approve:")` /
`F.data.startswith("reject:")`, modelled on the character list. -/
def handle_callback (channelId : Int) (issueOk : Bool) (inviteLink : String)
    (fromId : Nat) (cbData : String) (modMsgText : String)
    (s : BotState) : HResult :=
  if "approve:".data.isPrefixOf cbData.data then
    approve_user channelId issueOk inviteLink fromId cbData modMsgText s
  else if "reject:".data.isPrefixOf cbData.data then
    reject_user fromId cbData modMsgText s
  else
    { state := s, effects := [], ok := true }

/-- Sequential processing of a stream of text messages from one user:
fold `handle_message`, concatenating the emitted effects. -/
def run (admins : List Nat) (sendOk : Nat → Bool)
    (uid : Nat) (username : String) (s : BotState) :
    List String → BotState × List Effect
  | [] => (s, [])
  | t :: ts =>
    let r := handle_message admins sendOk uid username t s
    let rest := run admins sendOk uid username r.state ts
    (rest.1, r.effects ++ rest.2)

/-! ## Verification relations -/

/-- Two states that the dialogue can no longer distinguish: same step and
same gate, and the recorded answers agree on exactly the fields that a
later handler may still read before overwriting them (`name` from the
`address` step on, `name` and `address` at the `phone` step). -/
def Agree (s s' : BotState) : Prop :=
  s.fsmState = s'.fsmState ∧
  s.active_requests = s'.active_requests ∧
  (s.fsmState = some Step.address → s.data.name = s'.data.name) ∧
  (s.fsmState = some Step.phone →
    s.data.name = s'.data.name ∧ s.data.address = s'.data.address)

/-- `small` occurs contiguously inside `big`. -/
def strContains (big small : String) : Prop :=
  ∃ p q : String, big = p ++ small ++ q

/-! ## Helper lemmas -/

theorem mem_setAdd (x : Nat) (l : List Nat) : x ∈ setAdd x l := by
  unfold setAdd
  split
  · assumption
  · exact List.mem_cons_self x l

/-- The fan-out loop delivers exactly to the longest all-successful front
segment of the admin list, and completes iff every send succeeded. -/
theorem fanout_eq (sendOk : Nat → Bool) (text : String) (kb : InlineKb)
    (l : List Nat) :
    fanout sendOk text kb l =
      ((l.takeWhile sendOk).map (fun a => Effect.sendToAdmin a text kb),
       l.all sendOk) := by
  induction l with
  | nil => rfl
  | cons a rest ih =>
    by_cases h : sendOk a
    · simp [fanout, h, ih, List.takeWhile_cons]
    · simp [fanout, h, List.takeWhile_cons]

/-- `get_phone` adds the user to `active_requests` before the fan-out
loop, hence under every send-failure pattern. -/
theorem get_phone_mem_active (admins : List Nat) (sendOk : Nat → Bool)
    (uid : Nat) (username text : String) (s : BotState) :
    uid ∈ (get_phone admins sendOk uid username text s).state.active_requests := by
  obtain ⟨fs, ⟨dn, da⟩, ar⟩ := s
  match dn, da with
  | some n, some a =>
    simp only [get_phone, fanout_eq]
    by_cases hall : List.all admins sendOk
    · simp [hall, mem_setAdd]
    · simp only [Bool.not_eq_true] at hall
      simp [hall, mem_setAdd]
  | some n, none => exact mem_setAdd uid ar
  | none, some a => exact mem_setAdd uid ar
  | none, none => exact mem_setAdd uid ar

theorem agree_refl (s : BotState) : Agree s s :=
  ⟨rfl, rfl, fun _ => rfl, fun _ => ⟨rfl, rfl⟩⟩

theorem consent_ne_address : some Step.consent ≠ some Step.address := by
  decide

theorem consent_ne_phone : some Step.consent ≠ some Step.phone := by
  decide

/-! Reduction equations for `handle_message`, one per routing branch. -/

theorem hm_start_pending (admins : List Nat) (sendOk : Nat → Bool)
    (uid : Nat) (username : String) (s : BotState)
    (hm : uid ∈ s.active_requests) :
    handle_message admins sendOk uid username "/start" s =
      ⟨s, [Effect.reply alreadyPendingText false], true⟩ := by
  simp [handle_message, start, hm]

theorem hm_start_fresh (admins : List Nat) (sendOk : Nat → Bool)
    (uid : Nat) (username : String) (s : BotState)
    (hm : uid ∉ s.active_requests) :
    handle_message admins sendOk uid username "/start" s =
      ⟨⟨some Step.consent, s.data, s.active_requests⟩,
       [Effect.reply consentPromptText true], true⟩ := by
  obtain ⟨fs, dt, ar⟩ := s
  simp only at hm
  simp [handle_message, start, hm]

theorem hm_consent_yes (admins : List Nat) (sendOk : Nat → Bool)
    (uid : Nat) (username : String) (s : BotState)
    (hc : s.fsmState = some Step.consent) :
    handle_message admins sendOk uid username "Согласен" s =
      ⟨⟨some Step.name, s.data, s.active_requests⟩,
       [Effect.reply askNameText false], true⟩ := by
  obtain ⟨fs, dt, ar⟩ := s
  simp only at hc
  subst hc
  simp [handle_message, consent_given]

theorem hm_consent_other (admins : List Nat) (sendOk : Nat → Bool)
    (uid : Nat) (username t : String) (s : BotState)
    (hc : s.fsmState = some Step.consent) (hst : t ≠ "/start")
    (hy : t ≠ "Согласен") :
    handle_message admins sendOk uid username t s = ⟨s, [], true⟩ := by
  obtain ⟨fs, dt, ar⟩ := s
  simp only at hc
  subst hc
  simp [handle_message, hst, hy]

theorem hm_name (admins : List Nat) (sendOk : Nat → Bool)
    (uid : Nat) (username t : String) (s : BotState)
    (hc : s.fsmState = some Step.name) (hst : t ≠ "/start") :
    handle_message admins sendOk uid username t s =
      ⟨⟨some Step.address, ⟨some t, s.data.address⟩, s.active_requests⟩,
       [Effect.reply askAddressText false], true⟩ := by
  obtain ⟨fs, dt, ar⟩ := s
  simp only at hc
  subst hc
  simp [handle_message, hst, get_name]

theorem hm_address (admins : List Nat) (sendOk : Nat → Bool)
    (uid : Nat) (username t : String) (s : BotState)
    (hc : s.fsmState = some Step.address) (hst : t ≠ "/start") :
    handle_message admins sendOk uid username t s =
      ⟨⟨some Step.phone, ⟨s.data.name, some t⟩, s.active_requests⟩,
       [Effect.reply askPhoneText false], true⟩ := by
  obtain ⟨fs, dt, ar⟩ := s
  simp only at hc
  subst hc
  simp [handle_message, hst, get_address]

theorem hm_phone (admins : List Nat) (sendOk : Nat → Bool)
    (uid : Nat) (username t : String) (s : BotState)
    (hc : s.fsmState = some Step.phone) (hst : t ≠ "/start") :
    handle_message admins sendOk uid username t s =
      get_phone admins sendOk uid username t s := by
  obtain ⟨fs, dt, ar⟩ := s
  simp only at hc
  subst hc
  simp [handle_message, hst]

theorem hm_idle (admins : List Nat) (sendOk : Nat → Bool)
    (uid : Nat) (username t : String) (s : BotState)
    (hc : s.fsmState = none) (hst : t ≠ "/start") :
    handle_message admins sendOk uid username t s = ⟨s, [], true⟩ := by
  obtain ⟨fs, dt, ar⟩ := s
  simp only at hc
  subst hc
  simp [handle_message, hst]

/-- One dialogue step preserves `Agree` and emits the same effects on both
sides: the fields on which two `Agree`-related states may differ are
exactly the ones that are overwritten before any handler reads them. -/
theorem handle_message_agree (admins : List Nat) (sendOk : Nat → Bool)
    (uid : Nat) (username t : String) (s s' : BotState) (h : Agree s s') :
    (handle_message admins sendOk uid username t s).effects
      = (handle_message admins sendOk uid username t s').effects ∧
    Agree (handle_message admins sendOk uid username t s).state
          (handle_message admins sendOk uid username t s').state := by
  obtain ⟨fs, ⟨dn, da⟩, ar⟩ := s
  obtain ⟨fs', ⟨dn', da'⟩, ar'⟩ := s'
  obtain ⟨h1, h2, h3, h4⟩ := h
  simp only at h1 h2 h3 h4
  subst h1
  subst h2
  by_cases hst : t = "/start"
  · subst hst
    by_cases hm : uid ∈ ar
    · rw [hm_start_pending admins sendOk uid username _ hm,
        hm_start_pending admins sendOk uid username _ hm]
      exact ⟨rfl, rfl, rfl, h3, h4⟩
    · rw [hm_start_fresh admins sendOk uid username _ hm,
        hm_start_fresh admins sendOk uid username _ hm]
      exact ⟨rfl, rfl, rfl, by intro hx; simp at hx,
        by intro hx; simp at hx⟩
  · cases fs with
    | none =>
      rw [hm_idle admins sendOk uid username t _ rfl hst,
        hm_idle admins sendOk uid username t _ rfl hst]
      exact ⟨rfl, rfl, rfl, h3, h4⟩
    | some st =>
      cases st with
      | consent =>
        by_cases hc : t = "Согласен"
        · subst hc
          rw [hm_consent_yes admins sendOk uid username _ rfl,
            hm_consent_yes admins sendOk uid username _ rfl]
          exact ⟨rfl, rfl, rfl, by intro hx; simp at hx,
            by intro hx; simp at hx⟩
        · rw [hm_consent_other admins sendOk uid username t _ rfl hst hc,
            hm_consent_other admins sendOk uid username t _ rfl hst hc]
          exact ⟨rfl, rfl, rfl, h3, h4⟩
      | name =>
        rw [hm_name admins sendOk uid username t _ rfl hst,
          hm_name admins sendOk uid username t _ rfl hst]
        exact ⟨rfl, rfl, rfl, fun _ => rfl,
          by intro hx; simp at hx⟩
      | address =>
        obtain rfl : dn = dn' := h3 rfl
        rw [hm_address admins sendOk uid username t _ rfl hst,
          hm_address admins sendOk uid username t _ rfl hst]
        exact ⟨rfl, rfl, rfl, fun _ => rfl, fun _ => ⟨rfl, rfl⟩⟩
      | phone =>
        obtain ⟨hdn, hda⟩ := h4 rfl
        subst hdn
        subst hda
        exact ⟨rfl, agree_refl _⟩

/-- `Agree`-related states produce identical effect streams on every
subsequent message trace. -/
theorem run_agree (admins : List Nat) (sendOk : Nat → Bool)
    (uid : Nat) (username : String) (s s' : BotState) (h : Agree s s')
    (evs : List String) :
    (run admins sendOk uid username s evs).2
      = (run admins sendOk uid username s' evs).2 := by
  induction evs generalizing s s' with
  | nil => rfl
  | cons t ts ih =>
    obtain ⟨he, ha⟩ := handle_message_agree admins sendOk uid username t s s' h
    simp only [run]
    rw [he, ih _ _ ha]

/-! ## Claim theorems -/

/-- C1 counterexample: with moderator set `{1}`, a decision event triggered
by identity `2 ∉ {1}` is *not* rejected: `approve_user` still mints the
credential, messages the applicant, clears the admission-gate mark for
user 5 and annotates the moderator message — the handler never reads the
triggering identity. -/
theorem approve_runs_for_nonmoderator_cex :
    (2 : Nat) ∉ [1] ∧
    approve_user 100 true "https://invite.example" 2 "approve:5" "msg"
        ⟨none, ⟨none, none⟩, [5]⟩ =
      ⟨⟨none, ⟨none, none⟩, []⟩,
       [Effect.createInvite 100 1 24,
        Effect.sendMessage 5 (approveNoticeText "https://invite.example"),
        Effect.editText "msg\n\n✅ Заявка одобрена",
        Effect.answerCallback], true⟩ := by
  exact ⟨by decide, rfl⟩

/-- C1 (amended): the decision handlers perform no authorization check at
all: their result is the same for every triggering identity, member of
the static moderator set or not — authorization rests entirely on the
transport restricting who can press the inline control. -/
theorem decision_handlers_ignore_sender (channelId : Int) (issueOk : Bool)
    (inviteLink : String) (f1 f2 : Nat) (cbData modMsgText : String)
    (s : BotState) :
    approve_user channelId issueOk inviteLink f1 cbData modMsgText s =
      approve_user channelId issueOk inviteLink f2 cbData modMsgText s ∧
    reject_user f1 cbData modMsgText s = reject_user f2 cbData modMsgText s :=
  ⟨rfl, rfl⟩

/-- C2 counterexample: with admins `[1, 2]` and the send to admin `1`
failing, the fan-out loop aborts before admin `2` — a non-failing
moderator — who therefore receives nothing (the effect list is empty);
the gate mark for user 5 is kept. -/
theorem fanout_aborts_on_failure_cex :
    get_phone [1, 2] (fun a => a != 1) 5 "u" "p"
        ⟨some Step.phone, ⟨some "N", some "A"⟩, []⟩ =
      ⟨⟨some Step.phone, ⟨some "N", some "A"⟩, [5]⟩, [], false⟩ := by
  rfl

/-- C2 (amended): a delivery failure during fan-out is not isolated: the
loop has no per-recipient error handling, so the first failing send
aborts the remaining attempts, and only the moderators strictly before
the first failure (in iteration order) receive the submission.  The
admission-gate mark is however never rolled back: the user is pending in
the resulting state for every failure pattern. -/
theorem get_phone_partial_fanout (admins : List Nat) (sendOk : Nat → Bool)
    (uid : Nat) (username text : String) (s : BotState) (n a : String)
    (hn : s.data.name = some n) (ha : s.data.address = some a) :
    uid ∈ (get_phone admins sendOk uid username text s).state.active_requests ∧
    (admins.all sendOk = false →
      get_phone admins sendOk uid username text s =
        ⟨⟨s.fsmState, s.data, setAdd uid s.active_requests⟩,
         (admins.takeWhile sendOk).map
           (fun ad => Effect.sendToAdmin ad
             (text_for_admin username uid n a text) (admin_kb uid)),
         false⟩) := by
  obtain ⟨fs, dt, ar⟩ := s
  simp only at hn ha
  constructor
  · simp only [get_phone, hn, ha, fanout_eq]
    by_cases hall : List.all admins sendOk
    · simp [hall, mem_setAdd]
    · simp only [Bool.not_eq_true] at hall
      simp [hall, mem_setAdd]
  · intro hall
    simp [get_phone, hn, ha, fanout_eq, hall]

/-- C2 witness: the amended theorem at the concrete failing fan-out of
`fanout_aborts_on_failure_cex`: user 5 is still pending afterwards. -/
theorem get_phone_partial_fanout_witness :
    5 ∈ (get_phone [1, 2] (fun a => a != 1) 5 "u" "p"
        ⟨some Step.phone, ⟨some "N", some "A"⟩, []⟩).state.active_requests :=
  (get_phone_partial_fanout [1, 2] (fun a => a != 1) 5 "u" "p"
    ⟨some Step.phone, ⟨some "N", some "A"⟩, []⟩ "N" "A" rfl rfl).1

/-- C4: on an approve decision for target `u` with a successful issuance,
the credential issuer is invoked exactly once, with `member_limit = 1`
and a 24-hour expiry; the applicant is messaged with the credential, `u`
is discarded from the admission gate (so, for a duplicate-free gate, it
no longer holds `u`), the moderator message is rewritten with the
appended approval annotation, and the callback is acknowledged. -/
theorem approve_success_effects (channelId : Int) (inviteLink : String)
    (fromId : Nat) (cbData modMsgText : String) (s : BotState) (u : Nat)
    (hp : parse_target cbData = some u) :
    approve_user channelId true inviteLink fromId cbData modMsgText s =
      ⟨⟨s.fsmState, s.data, setDiscard u s.active_requests⟩,
       [Effect.createInvite channelId 1 24,
        Effect.sendMessage u (approveNoticeText inviteLink),
        Effect.editText (modMsgText ++ "\n\n✅ Заявка одобрена"),
        Effect.answerCallback], true⟩ ∧
    List.count (Effect.createInvite channelId 1 24)
      (approve_user channelId true inviteLink fromId cbData modMsgText s).effects
      = 1 ∧
    (s.active_requests.Nodup →
      u ∉ (approve_user channelId true inviteLink fromId cbData modMsgText
            s).state.active_requests) := by
  have h1 : approve_user channelId true inviteLink fromId cbData modMsgText s =
      ⟨⟨s.fsmState, s.data, setDiscard u s.active_requests⟩,
       [Effect.createInvite channelId 1 24,
        Effect.sendMessage u (approveNoticeText inviteLink),
        Effect.editText (modMsgText ++ "\n\n✅ Заявка одобрена"),
        Effect.answerCallback], true⟩ := by
    simp [approve_user, hp]
  refine ⟨h1, ?_, ?_⟩
  · rw [h1]
    simp [List.count_cons]
  · intro hnd
    rw [h1]
    intro hmem
    exact ((hnd.mem_erase_iff.mp hmem).1 rfl).elim

/-- C4 witness: the concrete approve decision `approve:5`. -/
theorem approve_success_effects_witness :
    approve_user 100 true "https://invite.example" 1 "approve:5" "msg"
        ⟨none, ⟨none, none⟩, [5]⟩ =
      ⟨⟨none, ⟨none, none⟩, setDiscard 5 [5]⟩,
       [Effect.createInvite 100 1 24,
        Effect.sendMessage 5 (approveNoticeText "https://invite.example"),
        Effect.editText "msg\n\n✅ Заявка одобрена",
        Effect.answerCallback], true⟩ :=
  (approve_success_effects 100 "https://invite.example" 1 "approve:5" "msg"
    ⟨none, ⟨none, none⟩, [5]⟩ 5 rfl).1

/-- C5: when the issuance call fails, the exception escapes before any
other step of the approve handler: the state (gate included) is
unchanged, no message reaches the applicant and the moderator message is
not edited — the only recorded action is the failed issuer call itself. -/
theorem approve_issue_failure_aborts (channelId : Int) (inviteLink : String)
    (fromId : Nat) (cbData modMsgText : String) (s : BotState) (u : Nat)
    (hp : parse_target cbData = some u) :
    approve_user channelId false inviteLink fromId cbData modMsgText s =
      ⟨s, [Effect.createInvite channelId 1 24], false⟩ ∧
    (approve_user channelId false inviteLink fromId cbData modMsgText s).state
      = s ∧
    (∀ dst t, Effect.sendMessage dst t ∉
      (approve_user channelId false inviteLink fromId cbData modMsgText
        s).effects) ∧
    (∀ t, Effect.editText t ∉
      (approve_user channelId false inviteLink fromId cbData modMsgText
        s).effects) := by
  have h1 : approve_user channelId false inviteLink fromId cbData modMsgText s =
      ⟨s, [Effect.createInvite channelId 1 24], false⟩ := by
    simp [approve_user, hp]
  refine ⟨h1, by rw [h1], ?_, ?_⟩
  · intro dst t
    rw [h1]
    simp
  · intro t
    rw [h1]
    simp

/-- C5 witness: the concrete failing approve decision `approve:5`. -/
theorem approve_issue_failure_aborts_witness :
    approve_user 100 false "https://invite.example" 1 "approve:5" "msg"
        ⟨none, ⟨none, none⟩, [5]⟩ =
      ⟨⟨none, ⟨none, none⟩, [5]⟩, [Effect.createInvite 100 1 24], false⟩ :=
  (approve_issue_failure_aborts 100 "https://invite.example" 1 "approve:5"
    "msg" ⟨none, ⟨none, none⟩, [5]⟩ 5 rfl).1

/-- C6 counterexample: the `name` step applies no validation predicate:
the empty text `""` — which fails the spec's non-empty predicate — is
still recorded as the `name` answer and the session advances to the
`address` step, contradicting "an input failing validation causes no
session mutation". -/
theorem get_name_records_empty_cex :
    handle_message [] (fun _ => true) 5 "u" ""
        ⟨some Step.name, ⟨none, none⟩, []⟩ =
      ⟨⟨some Step.address, ⟨some "", none⟩, []⟩,
       [Effect.reply askAddressText false], true⟩ := by
  rfl

/-- C6 (amended): an answer for an answer-collecting step is recorded
exactly when the session is at that step and the message is routed to
the step's handler (any text other than the start trigger); no
validation is applied — any text, the empty one included, is recorded
and advances the step.  Conversely the `name` (resp. `address`) answer
is never touched by a message handled at another step, except for the
session-destroying completion at `phone`. -/
theorem answers_recorded_no_validation (admins : List Nat)
    (sendOk : Nat → Bool) (uid : Nat) (username text : String) (s : BotState)
    (hs : text ≠ "/start") :
    (s.fsmState = some Step.name →
      handle_message admins sendOk uid username text s =
        ⟨⟨some Step.address, ⟨some text, s.data.address⟩, s.active_requests⟩,
         [Effect.reply askAddressText false], true⟩) ∧
    (s.fsmState = some Step.address →
      handle_message admins sendOk uid username text s =
        ⟨⟨some Step.phone, ⟨s.data.name, some text⟩, s.active_requests⟩,
         [Effect.reply askPhoneText false], true⟩) ∧
    (s.fsmState ≠ some Step.name → s.fsmState ≠ some Step.phone →
      (handle_message admins sendOk uid username text s).state.data.name
        = s.data.name) ∧
    (s.fsmState ≠ some Step.address → s.fsmState ≠ some Step.phone →
      (handle_message admins sendOk uid username text s).state.data.address
        = s.data.address) := by
  obtain ⟨fs, dt, ar⟩ := s
  refine ⟨?_, ?_, ?_, ?_⟩
  · intro h
    simp only at h
    subst h
    simp [handle_message, hs, get_name]
  · intro h
    simp only at h
    subst h
    simp [handle_message, hs, get_address]
  · intro hn hp
    simp only at hn hp
    simp only [handle_message, hs, if_neg]
    match fs with
    | none => rfl
    | some Step.consent =>
      by_cases hc : text = "Согласен" <;> simp [hc, consent_given]
    | some Step.name => exact (hn rfl).elim
    | some Step.address => simp [get_address]
    | some Step.phone => exact (hp rfl).elim
  · intro hn hp
    simp only at hn hp
    simp only [handle_message, hs, if_neg]
    match fs with
    | none => rfl
    | some Step.consent =>
      by_cases hc : text = "Согласен" <;> simp [hc, consent_given]
    | some Step.name => simp [get_name]
    | some Step.address => exact (hn rfl).elim
    | some Step.phone => exact (hp rfl).elim

/-- C6 witness: the amended theorem at the empty text on the `name` step. -/
theorem answers_recorded_no_validation_witness :
    handle_message [] (fun _ => true) 5 "u" ""
        ⟨some Step.name, ⟨none, none⟩, []⟩ =
      ⟨⟨some Step.address, ⟨some "", none⟩, []⟩,
       [Effect.reply askAddressText false], true⟩ :=
  ((answers_recorded_no_validation [] (fun _ => true) 5 "u" ""
    ⟨some Step.name, ⟨none, none⟩, []⟩ (by decide)).1) rfl

/-- C7: a user already marked pending who sends the dialogue-start trigger
gets exactly the fixed "already under review" reply and nothing else:
session store (FSM state and data) and gate are unchanged. -/
theorem start_pending_fixed_reply (admins : List Nat) (sendOk : Nat → Bool)
    (uid : Nat) (username : String) (s : BotState)
    (h : uid ∈ s.active_requests) :
    handle_message admins sendOk uid username "/start" s =
      ⟨s, [Effect.reply alreadyPendingText false], true⟩ := by
  simp [handle_message, start, h]

/-- C7 witness: pending user 5 sends `/start`. -/
theorem start_pending_fixed_reply_witness :
    handle_message [] (fun _ => true) 5 "u" "/start"
        ⟨none, ⟨none, none⟩, [5]⟩ =
      ⟨⟨none, ⟨none, none⟩, [5]⟩,
       [Effect.reply alreadyPendingText false], true⟩ :=
  start_pending_fixed_reply [] (fun _ => true) 5 "u"
    ⟨none, ⟨none, none⟩, [5]⟩ (by decide)

/-- C8: at the consent step, exactly the affirmative text `"Согласен"`
advances the session to the name step (leaving answers and gate alone);
any other text leaves the session — current step and answers — and the
gate unchanged (the `/start` trigger re-prompts but puts the step back
to consent, i.e. the very same session state). -/
theorem consent_only_affirmative_advances (admins : List Nat)
    (sendOk : Nat → Bool) (uid : Nat) (username text : String) (s : BotState)
    (hc : s.fsmState = some Step.consent) :
    (text = "Согласен" →
      handle_message admins sendOk uid username text s =
        ⟨⟨some Step.name, s.data, s.active_requests⟩,
         [Effect.reply askNameText false], true⟩) ∧
    (text ≠ "Согласен" →
      (handle_message admins sendOk uid username text s).state = s) := by
  obtain ⟨fs, dt, ar⟩ := s
  simp only at hc
  subst hc
  constructor
  · intro h
    subst h
    simp [handle_message, consent_given]
  · intro h
    by_cases hst : text = "/start"
    · subst hst
      by_cases hm : uid ∈ ar <;> simp [handle_message, start, hm]
    · simp [handle_message, hst, h]

/-- C8 witness: at consent, `"Согласен"` advances to name and `"nope"`
leaves the session unchanged. -/
theorem consent_only_affirmative_advances_witness :
    (handle_message [] (fun _ => true) 5 "u" "Согласен"
        ⟨some Step.consent, ⟨none, none⟩, []⟩ =
      ⟨⟨some Step.name, ⟨none, none⟩, []⟩,
       [Effect.reply askNameText false], true⟩) ∧
    (handle_message [] (fun _ => true) 5 "u" "nope"
        ⟨some Step.consent, ⟨none, none⟩, []⟩).state =
      ⟨some Step.consent, ⟨none, none⟩, []⟩ :=
  ⟨(consent_only_affirmative_advances [] (fun _ => true) 5 "u" "Согласен"
      ⟨some Step.consent, ⟨none, none⟩, []⟩ rfl).1 rfl,
   (consent_only_affirmative_advances [] (fun _ => true) 5 "u" "nope"
      ⟨some Step.consent, ⟨none, none⟩, []⟩ rfl).2 (by decide)⟩

/-- C9: the decision handlers never consult the admission gate.  For a
well-formed `approve:<u>` event with `u` *not* pending, the full effect
sequence still runs (the `discard` of an absent element leaves the gate
literally unchanged, so the final state equals the initial one), the
observable behaviour is independent of the gate contents, the same holds
for `reject:<u>`, and a second delivery of the same approve event mints
a fresh single-use credential and sends the applicant a second
credential message. -/
theorem decision_handlers_ignore_gate (channelId : Int)
    (inviteLink inviteLink2 : String) (f1 f2 : Nat)
    (cbA cbR modMsg modMsg2 : String) (s : BotState) (u : Nat)
    (hpA : parse_target cbA = some u) (hpR : parse_target cbR = some u)
    (hnp : u ∉ s.active_requests) :
    approve_user channelId true inviteLink f1 cbA modMsg s =
      ⟨s, [Effect.createInvite channelId 1 24,
           Effect.sendMessage u (approveNoticeText inviteLink),
           Effect.editText (modMsg ++ "\n\n✅ Заявка одобрена"),
           Effect.answerCallback], true⟩ ∧
    approve_user channelId true inviteLink2 f2 cbA modMsg2
        (approve_user channelId true inviteLink f1 cbA modMsg s).state =
      ⟨s, [Effect.createInvite channelId 1 24,
           Effect.sendMessage u (approveNoticeText inviteLink2),
           Effect.editText (modMsg2 ++ "\n\n✅ Заявка одобрена"),
           Effect.answerCallback], true⟩ ∧
    reject_user f1 cbR modMsg s =
      ⟨s, [Effect.sendMessage u rejectNoticeText,
           Effect.editText (modMsg ++ "\n\n❌ Заявка отклонена"),
           Effect.answerCallback], true⟩ ∧
    (∀ l' : List Nat,
      (approve_user channelId true inviteLink f1 cbA modMsg
          ⟨s.fsmState, s.data, l'⟩).effects =
        (approve_user channelId true inviteLink f1 cbA modMsg s).effects) := by
  have herase : setDiscard u s.active_requests = s.active_requests :=
    List.erase_of_not_mem hnp
  have h1 : approve_user channelId true inviteLink f1 cbA modMsg s =
      ⟨s, [Effect.createInvite channelId 1 24,
           Effect.sendMessage u (approveNoticeText inviteLink),
           Effect.editText (modMsg ++ "\n\n✅ Заявка одобрена"),
           Effect.answerCallback], true⟩ := by
    simp [approve_user, hpA, herase]
  refine ⟨h1, ?_, ?_, ?_⟩
  · rw [h1]
    simp [approve_user, hpA, herase]
  · simp [reject_user, hpR, herase]
  · intro l'
    simp [approve_user, hpA]

/-- C9 witness: approving the non-pending user 5 twice in a row, plus the
reject path, at concrete inputs. -/
theorem decision_handlers_ignore_gate_witness :
    approve_user 100 true "link1" 1 "approve:5" "m" ⟨none, ⟨none, none⟩, [8]⟩ =
      ⟨⟨none, ⟨none, none⟩, [8]⟩,
       [Effect.createInvite 100 1 24,
        Effect.sendMessage 5 (approveNoticeText "link1"),
        Effect.editText "m\n\n✅ Заявка одобрена",
        Effect.answerCallback], true⟩ :=
  (decision_handlers_ignore_gate 100 "link1" "link2" 1 2 "approve:5"
    "reject:5" "m" "m2" ⟨none, ⟨none, none⟩, [8]⟩ 5 rfl rfl (by decide)).1

/-- C3: a dialogue reaching the phone step with both answers recorded and
all sends succeeding produces exactly one submission per moderator — the
message carrying the three collected fields plus the user's identity and
username — and the user is added to the admission gate *before* the
first fan-out send: under every failure pattern of the sends (including
failure of the very first one) the user is already pending, so there is
no point of the completion sequence where the dialogue has completed but
the user is not pending. -/
theorem get_phone_success_fanout (admins : List Nat) (sendOk : Nat → Bool)
    (uid : Nat) (username text : String) (s : BotState) (n a : String)
    (hn : s.data.name = some n) (ha : s.data.address = some a)
    (hok : admins.all sendOk = true) (hnd : admins.Nodup) :
    get_phone admins sendOk uid username text s =
      ⟨⟨none, ⟨none, none⟩, setAdd uid s.active_requests⟩,
       admins.map (fun ad =>
         Effect.sendToAdmin ad (text_for_admin username uid n a text)
           (admin_kb uid)) ++ [Effect.reply submittedText false], true⟩ ∧
    (∀ ad ∈ admins,
      List.count
        (Effect.sendToAdmin ad (text_for_admin username uid n a text)
          (admin_kb uid))
        (get_phone admins sendOk uid username text s).effects = 1) ∧
    (∀ sendOk' : Nat → Bool,
      uid ∈ (get_phone admins sendOk' uid username text
        s).state.active_requests) ∧
    strContains (text_for_admin username uid n a text) n ∧
    strContains (text_for_admin username uid n a text) a ∧
    strContains (text_for_admin username uid n a text) text ∧
    strContains (text_for_admin username uid n a text) username ∧
    strContains (text_for_admin username uid n a text) (toString uid) := by
  have h1 : get_phone admins sendOk uid username text s =
      ⟨⟨none, ⟨none, none⟩, setAdd uid s.active_requests⟩,
       admins.map (fun ad =>
         Effect.sendToAdmin ad (text_for_admin username uid n a text)
           (admin_kb uid)) ++ [Effect.reply submittedText false], true⟩ := by
    obtain ⟨fs, dt, ar⟩ := s
    simp only at hn ha
    have htw : List.takeWhile sendOk admins = admins :=
      List.takeWhile_eq_self_iff.mpr (fun x hx => List.all_eq_true.mp hok x hx)
    simp [get_phone, hn, ha, fanout_eq, hok, htw]
  refine ⟨h1, ?_, ?_, ?_, ?_, ?_, ?_, ?_⟩
  · intro ad had
    rw [h1]
    simp only [List.count_append]
    have hinj : Function.Injective
        (fun ad' => Effect.sendToAdmin ad'
          (text_for_admin username uid n a text) (admin_kb uid)) := by
      intro x y hxy
      simpa using hxy
    rw [List.count_map_of_injective admins _ hinj]
    rw [List.count_eq_one_of_mem hnd had]
    simp
  · intro sendOk'
    exact get_phone_mem_active admins sendOk' uid username text s
  · exact ⟨"Новая заявка на вступление\n\n" ++ "Telegram: @" ++ username ++
      "\n" ++ "ID: " ++ toString uid ++ "\n\n" ++ "Имя: ",
      "\n" ++ "Адрес: " ++ a ++ "\n" ++ "Телефон: " ++ text,
      by simp [text_for_admin, String.append_assoc]⟩
  · exact ⟨"Новая заявка на вступление\n\n" ++ "Telegram: @" ++ username ++
      "\n" ++ "ID: " ++ toString uid ++ "\n\n" ++ "Имя: " ++ n ++ "\n" ++
      "Адрес: ", "\n" ++ "Телефон: " ++ text,
      by simp [text_for_admin, String.append_assoc]⟩
  · exact ⟨"Новая заявка на вступление\n\n" ++ "Telegram: @" ++ username ++
      "\n" ++ "ID: " ++ toString uid ++ "\n\n" ++ "Имя: " ++ n ++ "\n" ++
      "Адрес: " ++ a ++ "\n" ++ "Телефон: ", "",
      by simp [text_for_admin, String.append_assoc]⟩
  · exact ⟨"Новая заявка на вступление\n\n" ++ "Telegram: @",
      "\n" ++ "ID: " ++ toString uid ++ "\n\n" ++ "Имя: " ++ n ++ "\n" ++
      "Адрес: " ++ a ++ "\n" ++ "Телефон: " ++ text,
      by simp [text_for_admin, String.append_assoc]⟩
  · exact ⟨"Новая заявка на вступление\n\n" ++ "Telegram: @" ++ username ++
      "\n" ++ "ID: ", "\n\n" ++ "Имя: " ++ n ++ "\n" ++ "Адрес: " ++ a ++
      "\n" ++ "Телефон: " ++ text,
      by simp [text_for_admin, String.append_assoc]⟩

/-- C3 witness: one admin, user 5 completes the dialogue. -/
theorem get_phone_success_fanout_witness :
    get_phone [7] (fun _ => true) 5 "user" "123"
        ⟨some Step.phone, ⟨some "N", some "A"⟩, []⟩ =
      ⟨⟨none, ⟨none, none⟩, setAdd 5 []⟩,
       [Effect.sendToAdmin 7 (text_for_admin "user" 5 "N" "A" "123")
          (admin_kb 5),
        Effect.reply submittedText false], true⟩ :=
  (get_phone_success_fanout [7] (fun _ => true) 5 "user" "123"
    ⟨some Step.phone, ⟨some "N", some "A"⟩, []⟩ "N" "A" rfl rfl rfl
    (by decide)).1

/-- C10 (amended): for a non-pending user the dialogue-start trigger is
handled identically whether or not a session is open: the step is reset
to consent while the recorded answers are retained (aiogram's
`set_state` does not clear the FSM data).  However — against the claim's
final clause — a retained answer cannot appear in a submission built
after the restart: the whole effect stream following the restart
(submissions included) is independent of the retained answers, since
`name` and `address` are necessarily overwritten on the only path back
to the phone step. -/
theorem start_restart_reset_and_independent (admins : List Nat)
    (sendOk : Nat → Bool) (uid : Nat) (username : String) (s : BotState)
    (d' : SessionData) (evs : List String)
    (h : uid ∉ s.active_requests) :
    handle_message admins sendOk uid username "/start" s =
      ⟨⟨some Step.consent, s.data, s.active_requests⟩,
       [Effect.reply consentPromptText true], true⟩ ∧
    (run admins sendOk uid username
        ⟨some Step.consent, s.data, s.active_requests⟩ evs).2 =
      (run admins sendOk uid username
        ⟨some Step.consent, d', s.active_requests⟩ evs).2 := by
  refine ⟨hm_start_fresh admins sendOk uid username s h, ?_⟩
  exact run_agree admins sendOk uid username
    ⟨some Step.consent, s.data, s.active_requests⟩
    ⟨some Step.consent, d', s.active_requests⟩
    ⟨rfl, rfl, fun hx => absurd hx consent_ne_address,
      fun hx => absurd hx consent_ne_phone⟩ evs

/-- C10 witness: a restart out of the phone step with retained answers,
followed by the consent answer: same step reset, same subsequent
effects as from a blank data record. -/
theorem start_restart_reset_and_independent_witness :
    handle_message [7] (fun _ => true) 5 "u" "/start"
        ⟨some Step.phone, ⟨some "A", some "B"⟩, []⟩ =
      ⟨⟨some Step.consent, ⟨some "A", some "B"⟩, []⟩,
       [Effect.reply consentPromptText true], true⟩ ∧
    (run [7] (fun _ => true) 5 "u"
        ⟨some Step.consent, ⟨some "A", some "B"⟩, []⟩ ["Согласен"]).2 =
      (run [7] (fun _ => true) 5 "u"
        ⟨some Step.consent, ⟨none, none⟩, []⟩ ["Согласен"]).2 :=
  start_restart_reset_and_independent [7] (fun _ => true) 5 "u"
    ⟨some Step.phone, ⟨some "A", some "B"⟩, []⟩ ⟨none, none⟩
    ["Согласен"] (by decide)

set_option maxRecDepth 20000 in
/-- C10 counterexample: a concrete restart in mid-dialogue.  The user is
at the phone step with recorded answers `RETAINED-NAME`/`RETAINED-ADDR`,
sends `/start`, and completes the whole dialogue again.  The single
submission fanned out is built purely from the post-restart answers; the
retained answers occur nowhere in it, contradicting the claim that an
answer collected before the restart can appear in the submission built
after it. -/
theorem restart_retained_answers_absent_cex :
    (run [7] (fun _ => true) 5 "user"
        ⟨some Step.phone, ⟨some "RETAINED-NAME", some "RETAINED-ADDR"⟩, []⟩
        ["/start", "Согласен", "Анна", "Улица 1", "123"]).2 =
      [Effect.reply consentPromptText true,
       Effect.reply askNameText false,
       Effect.reply askAddressText false,
       Effect.reply askPhoneText false,
       Effect.sendToAdmin 7 (text_for_admin "user" 5 "Анна" "Улица 1" "123")
         (admin_kb 5),
       Effect.reply submittedText false] ∧
    ¬ ("RETAINED-NAME".data <:+:
        (text_for_admin "user" 5 "Анна" "Улица 1" "123").data) ∧
    ¬ ("RETAINED-ADDR".data <:+:
        (text_for_admin "user" 5 "Анна" "Улица 1" "123").data) := by
  refine ⟨by decide, by decide, by decide⟩

end Bot
